import Mathlib

/-!
Shallow embedding of the readme-generator repository's analysis core.

Python strings are modelled as Lean `String` values; the Python string
operations used by the code (slicing `s[:n]`, `lower()`, `replace`,
`split`, `strip`, `title()`, substring tests with `in`, `startswith`)
are given executable char-list implementations so that the kernel can
evaluate them on concrete inputs.  A repository checkout is modelled as
a rose tree of named files (with contents) and directories; paths are
lists of name segments relative to the repository root (the root's own
name and its ancestors, which `pathlib` would also expose via
`Path.parents`, are outside the tree and assumed clean).  Calls to the
hosted LLM collaborator go through a single oracle of type
`String → Option String` mirroring `LangChainService._call_inference_api`
(the argument is the prompt; `none` models the underlying client raising).
-/

-- ==================================================================
-- Python string primitives
-- ==================================================================

/-- Boolean substring scan on char lists: `pat` occurs inside `l`. -/
def containsList (pat : List Char) : List Char → Bool
  | [] => List.isPrefixOf pat []
  | c :: rest => List.isPrefixOf pat (c :: rest) || containsList pat rest

/-- Python `pat in s` (substring containment). -/
def strContains (s pat : String) : Bool := containsList pat.data s.data

/-- Python `s.startswith(pat)`. -/
def strStartsWith (s pat : String) : Bool := List.isPrefixOf pat.data s.data

/-- Python `s.endswith(pat)`. -/
def strEndsWith (s pat : String) : Bool := List.isSuffixOf pat.data s.data

/-- Python slice `s[:n]` (by code point, as Python slices by character). -/
def pyTake (s : String) (n : Nat) : String := ⟨s.data.take n⟩

/-- Python `s.lower()` (ASCII case folding). -/
def pyLower (s : String) : String := ⟨s.data.map Char.toLower⟩

/-- Worker for `pyReplace`: the `Nat` argument counts characters still to
be skipped after a match was replaced, so that the recursion stays
structural on the scanned list. -/
def replaceGo (p : Char) (ps rep : List Char) : Nat → List Char → List Char
  | _, [] => []
  | Nat.succ k, _ :: rest => replaceGo p ps rep k rest
  | 0, c :: rest =>
    if List.isPrefixOf (p :: ps) (c :: rest) then rep ++ replaceGo p ps rep ps.length rest
    else c :: replaceGo p ps rep 0 rest

/-- Python `s.replace(pat, rep)`: every non-overlapping occurrence,
scanned left to right, is replaced (an empty pattern leaves `s`
unchanged; the code never calls it with an empty pattern). -/
def pyReplace (s pat rep : String) : String :=
  match pat.data with
  | [] => s
  | p :: ps => ⟨replaceGo p ps rep.data 0 s.data⟩

/-- Worker for `pySplit`, with the same skip-counter device as `replaceGo`;
the extra list accumulates the current fragment in reverse. -/
def splitGo (p : Char) (ps : List Char) : Nat → List Char → List Char → List (List Char)
  | Nat.succ k, _ :: rest, acc => splitGo p ps k rest acc
  | Nat.succ _, [], acc => [acc.reverse]
  | 0, [], acc => [acc.reverse]
  | 0, c :: rest, acc =>
    if List.isPrefixOf (p :: ps) (c :: rest) then
      acc.reverse :: splitGo p ps ps.length rest []
    else splitGo p ps 0 rest (c :: acc)

/-- Python `s.split(sep)` for a non-empty separator. -/
def pySplit (s sep : String) : List String :=
  match sep.data with
  | [] => [s]
  | p :: ps => (splitGo p ps 0 s.data []).map fun l => ⟨l⟩

/-- Python `sep.join(parts)`. -/
def pyJoin (sep : String) : List String → String
  | [] => ""
  | [x] => x
  | x :: xs => x ++ sep ++ pyJoin sep xs

/-- Python `s.strip('/')` (both ends). -/
def pyStripSlashes (s : String) : String :=
  ⟨((s.data.dropWhile fun c => c = '/').reverse.dropWhile fun c => c = '/').reverse⟩

/-- Python `s.strip()` (whitespace, both ends). -/
def pyStrip (s : String) : String :=
  ⟨((s.data.dropWhile Char.isWhitespace).reverse.dropWhile Char.isWhitespace).reverse⟩

/-- Worker for `pyTitle`; the Bool records whether the previous character
was alphabetic. -/
def pyTitleGo : Bool → List Char → List Char
  | _, [] => []
  | prevAlpha, c :: rest =>
    (if c.isAlpha then (if prevAlpha then c.toLower else c.toUpper) else c) ::
      pyTitleGo c.isAlpha rest

/-- Python `s.title()` (ASCII): the first letter of every maximal
alphabetic run is upper-cased, the rest lower-cased. -/
def pyTitle (s : String) : String := ⟨pyTitleGo false s.data⟩

-- ==================================================================
-- Repository trees (the filesystem under a cloned repository root)
-- ==================================================================

/-- One entry of a directory tree: a file with its text content, or a
named directory with children.  The repository root is a bare
`List FSEntry` (its own name lives outside the checkout). -/
inductive FSEntry where
  | file (name content : String)
  | dir (name : String) (children : List FSEntry)

/-- Names of the plain files among `cs`, in listing order. -/
def fileNamesOf (cs : List FSEntry) : List String :=
  cs.filterMap fun e => match e with | .file n _ => some n | .dir _ _ => none

/-- Content lookup for a relative segment path, used to model `open`. -/
def lookupFile : List FSEntry → List String → Option String
  | cs, [n] =>
    cs.findSome? fun e => match e with
      | .file m c => if m = n then some c else none
      | .dir _ _ => none
  | cs, n :: rest =>
    cs.findSome? fun e => match e with
      | .file _ _ => none
      | .dir m children => if m = n then lookupFile children rest else none
  | _, [] => none

-- ==================================================================
-- backend/utils/file_utils.py
-- ==================================================================

/-- `read_file_safe`: reads at most `maxChars` characters, degrading to an
inline error marker instead of raising (here: when the path is absent). -/
def read_file_safe (cs : List FSEntry) (path : List String) (maxChars : Nat) : String :=
  match lookupFile cs path with
  | some content => pyTake content maxChars
  | none => "[Error reading file: unreadable]"

/-- `pathlib.Path(filename).suffix`: index of the last dot of the name. -/
def lastDotIdx : List Char → Option Nat
  | [] => none
  | c :: rest =>
    match lastDotIdx rest with
    | some i => some (i + 1)
    | none => if c = '.' then some 0 else none

/-- `pathlib.Path(filename).suffix`: `name[i:]` when the last dot sits at
`0 < i < len(name) - 1`, else the empty string. -/
def pathSuffix (name : String) : String :=
  match lastDotIdx name.data with
  | some i => if 0 < i ∧ i < name.data.length - 1 then ⟨name.data.drop i⟩ else ""
  | none => ""

/-- `get_file_extension`: lowercase extension of the file name. -/
def get_file_extension (filename : String) : String := pyLower (pathSuffix filename)

/-- The source-code extension set of `is_code_file`. -/
def codeExtensions : List String :=
  [".py", ".js", ".ts", ".jsx", ".tsx",
   ".go", ".rs", ".java", ".cpp", ".c", ".h",
   ".cs", ".php", ".rb", ".swift", ".kt",
   ".scala", ".r", ".m", ".sql"]

/-- `is_code_file`. -/
def is_code_file (filename : String) : Bool :=
  codeExtensions.contains (get_file_extension filename)

/-- The fixed deny-list of `should_skip_directory`. -/
def skipDirs : List String :=
  ["node_modules", "__pycache__", "venv", "env", ".git", ".vscode",
   ".idea", "dist", "build", "target", ".next"]

/-- `should_skip_directory`: hidden-marker test or deny-list membership. -/
def should_skip_directory (dirname : String) : Bool :=
  strStartsWith dirname "." || skipDirs.contains dirname

/-- The `os.walk` traversal with `dirs[:] = [d for d in dirs if not
should_skip_directory(d)]` pruning, shared by `detect_primary_language`
and `get_priority_files`: emits `(relative segment path, base name)` for
every file reached, the files of each directory before its
subdirectories.  `walkSubs` handles the subdirectories of a directory
whose own relative path is `pre`. -/
def walkSubs (pre : List String) : List FSEntry → List (List String × String)
  | [] => []
  | .file _ _ :: rest => walkSubs pre rest
  | .dir n cs :: rest =>
    (if should_skip_directory n then []
     else (fileNamesOf cs).map (fun m => (pre ++ [n, m], m)) ++ walkSubs (pre ++ [n]) cs)
    ++ walkSubs pre rest

/-- All files the pruned `os.walk` visits, starting from the root. -/
def walkAll (cs : List FSEntry) : List (List String × String) :=
  (fileNamesOf cs).map (fun m => ([m], m)) ++ walkSubs [] cs

/-- All children of one directory as `(relative path, is_file)` pairs,
for the `Path.rglob("*")` enumeration. -/
def childEntries (pre : List String) (cs : List FSEntry) : List (List String × Bool) :=
  cs.map fun e => match e with
    | .file m _ => (pre ++ [m], true)
    | .dir m _ => (pre ++ [m], false)

/-- `Path.rglob("*")` below the subdirectories of a directory at `pre`:
every descendant path (files and directories alike), no pruning — the
skip filter of `get_file_structure` is applied afterwards per path. -/
def rglobSub (pre : List String) : List FSEntry → List (List String × Bool)
  | [] => []
  | .file _ _ :: rest => rglobSub pre rest
  | .dir n cs :: rest =>
    (childEntries (pre ++ [n]) cs ++ rglobSub (pre ++ [n]) cs) ++ rglobSub pre rest

/-- The full `root.rglob("*")` enumeration. -/
def rglobEntries (cs : List FSEntry) : List (List String × Bool) :=
  childEntries [] cs ++ rglobSub [] cs

/-- The loop body of `get_file_structure`: a path under a skipped parent
is `continue`d past (cap check included); otherwise a file is appended
and the loop `break`s as soon as `len(files) >= max_files`. -/
def structGo (maxFiles : Nat) : List (List String × Bool) → List (List String) → List (List String)
  | [], acc => acc
  | (p, isf) :: rest, acc =>
    if p.dropLast.any should_skip_directory then structGo maxFiles rest acc
    else
      let acc2 := if isf then acc ++ [p] else acc
      if maxFiles ≤ acc2.length then acc2 else structGo maxFiles rest acc2

/-- The relative file paths `get_file_structure` collects. -/
def structureFiles (cs : List FSEntry) (maxFiles : Nat) : List (List String) :=
  structGo maxFiles (rglobEntries cs) []

/-- `get_file_structure`: newline-joined relative paths (default cap 50). -/
def get_file_structure (cs : List FSEntry) (maxFiles : Nat) : String :=
  pyJoin "\n" ((structureFiles cs maxFiles).map fun p => pyJoin "/" p)

/-- The extension table of `detect_primary_language`, in insertion order. -/
def language_extensions : List (String × String) :=
  [(".py", "Python"), (".js", "JavaScript"), (".ts", "TypeScript"),
   (".go", "Go"), (".rs", "Rust"), (".java", "Java"), (".cpp", "C++"),
   (".c", "C"), (".cs", "C#"), (".php", "PHP"), (".rb", "Ruby")]

/-- `counts[ext] = counts.get(ext, 0) + 1` on an insertion-ordered dict. -/
def bumpCount (k : String) : List (String × Nat) → List (String × Nat)
  | [] => [(k, 1)]
  | (k', v) :: rest => if k' = k then (k', v + 1) :: rest else (k', v) :: bumpCount k rest

/-- The tally loop of `detect_primary_language` over the walked file names. -/
def tallyExtensions : List String → List (String × Nat) → List (String × Nat)
  | [], counts => counts
  | name :: rest, counts =>
    let ext := get_file_extension name
    if (List.lookup ext language_extensions).isSome
    then tallyExtensions rest (bumpCount ext counts)
    else tallyExtensions rest counts

/-- Python `max(counts, key=counts.get)`: the first key of maximal count
in iteration (insertion) order; later keys replace only on a strictly
greater count. -/
def argmaxFirst (best : String × Nat) : List (String × Nat) → String
  | [] => best.1
  | (k, v) :: rest => if best.2 < v then argmaxFirst (k, v) rest else argmaxFirst best rest

/-- `detect_primary_language`: tallies recognised extensions over the
pruned walk and returns the dominant language, `"Unknown"` when no
recognised source file exists. -/
def detect_primary_language (cs : List FSEntry) : String :=
  let counts := tallyExtensions ((walkAll cs).map Prod.snd) []
  match counts with
  | [] => "Unknown"
  | c :: rest => (List.lookup (argmaxFirst c rest) language_extensions).getD "Unknown"

/-- The entrypoint name set of `get_priority_files`. -/
def priority_names : List String :=
  ["main.py", "app.py", "__init__.py",
   "index.js", "main.js", "app.js",
   "index.ts", "main.go", "main.rs",
   "App.jsx", "App.tsx",
   "main.java", "Program.cs"]

/-- The early-return collection of `get_priority_files`: the result is
appended first and the function returns once `len(results) >= limit`;
`n` is the number already collected. -/
def capAppend (limit : Nat) : List α → Nat → List α
  | [], _ => []
  | x :: rest, n => x :: (if limit ≤ n + 1 then [] else capAppend limit rest (n + 1))

/-- `get_priority_files` (default cap 10): `(relative path, base name)`
pairs of walked files that are entrypoint names or recognised source
files, capped by early return. -/
def get_priority_files (cs : List FSEntry) (limit : Nat) : List (List String × String) :=
  capAppend limit
    ((walkAll cs).filter fun pn => priority_names.contains pn.2 || is_code_file pn.2) 0

/-- The manifest table of `get_dependency_files`, in insertion order. -/
def dependency_map : List (String × String) :=
  [("package.json", "Node.js / JavaScript"),
   ("requirements.txt", "Python"),
   ("pyproject.toml", "Python"),
   ("Cargo.toml", "Rust"),
   ("go.mod", "Go"),
   ("pom.xml", "Java (Maven)"),
   ("build.gradle", "Java (Gradle)"),
   ("Gemfile", "Ruby"),
   ("composer.json", "PHP")]

/-- Python dict assignment `found[tech] = content`: replaces in place on
an existing key, appends otherwise. -/
def dictInsert (k v : String) : List (String × String) → List (String × String)
  | [] => [(k, v)]
  | (k', v') :: rest => if k' = k then (k, v) :: rest else (k', v') :: dictInsert k v rest

/-- `get_dependency_files`: for each known manifest name directly under
the root, reads up to 3000 characters, keyed by ecosystem label. -/
def get_dependency_files (cs : List FSEntry) : List (String × String) :=
  dependency_map.foldl
    (fun found ft =>
      match lookupFile cs [ft.1] with
      | some _ => dictInsert ft.2 (read_file_safe cs [ft.1] 3000) found
      | none => found)
    []

-- ==================================================================
-- backend/config/settings.py (the values the analysis code reads)
-- ==================================================================

/-- `settings.max_file_size`. -/
def settings_max_file_size : Nat := 5000

/-- `settings.max_files_to_analyze`. -/
def settings_max_files_to_analyze : Nat := 10

-- ==================================================================
-- backend/services/langchain_service.py
-- ==================================================================

/-- `_call_inference_api`: the oracle result, with any client exception
caught and degraded to the empty string. -/
def callInferenceApi (r : Option String) : String := r.getD ""

/-- The prompt `analyze_file` builds (content truncated to 1500 chars). -/
def fileAnalysisPromptText (file_name file_content : String) : String :=
  "Analyze this code file and provide a brief summary (2-3 sentences):\n\nFile: "
    ++ file_name ++ "\n\n" ++ pyTake file_content 1500 ++ "\n\nSummary:"

/-- `analyze_file`: one per-file summary; an empty or failed inference
result degrades to the literal `[Analysis skipped - <name>]` placeholder. -/
def analyze_file (o : String → Option String) (file_name file_content : String) : String :=
  let result := callInferenceApi (o (fileAnalysisPromptText file_name file_content))
  if result = "" then "[Analysis skipped - " ++ file_name ++ "]" else result

/-- The prompt `detect_technologies` builds: only `dependencies[:800]` is
interpolated; the `files_info` argument is accepted but unused. -/
def techDetectionPromptText (files_info dependencies : String) : String :=
  "List all technologies and frameworks used in this project:\n\n"
    ++ pyTake dependencies 800 ++ "\n\nTechnologies (comma-separated):"

/-- `detect_technologies`: strip of the inference result, `"Unknown"` on
an empty or failed result. -/
def detect_technologies (o : String → Option String) (files_info dependencies : String) : String :=
  let result := callInferenceApi (o (techDetectionPromptText files_info dependencies))
  if result = "" then "Unknown" else pyStrip result

/-- The prompt `generate_readme` builds for the hosted model. -/
def readmePromptText (repo_url dependencies file_structure : String) : String :=
  "Create a professional README.md for this GitHub repository:\n\nRepository: "
    ++ repo_url ++ "\n\nDependencies:\n" ++ pyTake dependencies 600
    ++ "\n\nFiles:\n" ++ pyTake file_structure 400
    ++ "\n\nGenerate a README with:\n1. Project title and description\n2. Key features (3 points)\n3. Technologies used\n4. Installation steps\n5. Basic usage\n\nREADME:"

/-- `_create_basic_readme`: `repo_url.split('/')[-1].replace('.git', '')`. -/
def basicRepoName (repo_url : String) : String :=
  pyReplace ((pySplit repo_url "/").getLastD "") ".git" ""

/-- The `project_type` variable of `_create_basic_readme` after all four
detection blocks have run over `deps_lower = dependencies.lower()`. -/
def basicProjectType (dependencies : String) : String :=
  let d := pyLower dependencies
  let pt1 := if strContains d "fastapi" || strContains d "flask" || strContains d "django"
             then "Web API" else "Application"
  let pt2 := if strContains d "streamlit" then "Data Application" else pt1
  let pt3 := if strContains d "machine learning" || strContains d "scikit-learn"
                || strContains d "tensorflow" || strContains d "torch"
             then "Machine Learning Project" else pt2
  if strContains d "react" || strContains d "vue" || strContains d "angular"
  then "Frontend Application" else pt3

/-- The `run_cmd` variable of `_create_basic_readme`: set by the web-API
block (fastapi first), then overwritten by the frontend block when
react/vue/angular is mentioned. -/
def basicRunCmd (dependencies : String) : String :=
  let d := pyLower dependencies
  let r1 := if strContains d "fastapi" || strContains d "flask" || strContains d "django" then
              if strContains d "fastapi" then "uvicorn app.main:app --reload"
              else if strContains d "flask" then "flask run"
              else "python manage.py runserver"
            else "python main.py"
  if strContains d "react" || strContains d "vue" || strContains d "angular"
  then "npm start" else r1

/-- The `install_cmd` variable of `_create_basic_readme`. -/
def basicInstallCmd (dependencies : String) : String :=
  let d := pyLower dependencies
  if strContains d "react" || strContains d "vue" || strContains d "angular"
  then "npm install" else "pip install -r requirements.txt"

/-- The `tech_stack` list of `_create_basic_readme` before the language
is inserted at position 0: appends by the web-API block (fastapi before
flask before django), the streamlit block, the machine-learning block,
the frontend block, and the Docker check on the structure text. -/
def basicTechStackPreLang (dependencies file_structure : String) : List String :=
  let d := pyLower dependencies
  let t1 := if strContains d "fastapi" || strContains d "flask" || strContains d "django" then
              if strContains d "fastapi" then ["FastAPI"]
              else if strContains d "flask" then ["Flask"]
              else ["Django"]
            else []
  let t2 := t1 ++ (if strContains d "streamlit" then ["Streamlit"] else [])
  let t3 := t2 ++ (if strContains d "machine learning" || strContains d "scikit-learn"
                      || strContains d "tensorflow" || strContains d "torch" then
                     (if strContains d "scikit-learn" then ["Scikit-learn"] else [])
                       ++ (if strContains d "tensorflow" then ["TensorFlow"] else [])
                       ++ (if strContains d "torch" || strContains d "pytorch" then ["PyTorch"] else [])
                   else [])
  let t4 := t3 ++ (if strContains d "react" || strContains d "vue" || strContains d "angular" then
                     if strContains d "react" then ["React"]
                     else if strContains d "vue" then ["Vue.js"]
                     else ["Angular"]
                   else [])
  t4 ++ (if strContains (pyLower file_structure) "docker" then ["Docker"] else [])

/-- The `language` variable of `_create_basic_readme`: case-sensitive
substring tests against the raw structure text. -/
def basicLanguage (file_structure : String) : String :=
  if strContains file_structure "requirements.txt" then "Python"
  else if strContains file_structure "package.json" then "JavaScript"
  else "Unknown"

/-- The final `tech_stack` after `tech_stack.insert(0, language)`. -/
def basicTechStack (dependencies file_structure : String) : List String :=
  (if basicLanguage file_structure = "Python" then ["Python"]
   else if basicLanguage file_structure = "JavaScript" then ["JavaScript"]
   else []) ++ basicTechStackPreLang dependencies file_structure

/-- The f-string of `_create_basic_readme`, abstracted over every
interpolated value, as an explicit concatenation of its literal chunks. -/
def basicReadmeText (title ptLower repoName techStackStr deps400 language dockerPre
    repoUrl installCmd dockerBlock runCmd fs600 testCmd : String) : String :=
  "# " ++ title ++
  "\n\n## 📋 Description\n\nA " ++ ptLower ++
  " built with modern technologies. This repository contains the source code and configuration files for " ++ repoName ++
  ".\n\n## ✨ Features\n\n- 🚀 Modern architecture and clean code structure\n- 📦 Well-organized project layout\n- 🔧 Easy to set up and configure\n- 📝 Comprehensive documentation\n- 🧪 Ready for development and testing\n\n## 🛠️ Technologies Used\n\n**Core Stack:** " ++ techStackStr ++
  "\n\n**Dependencies:**\n" ++ deps400 ++
  "\n\n## 📦 Installation\n\n### Prerequisites\n- " ++ language ++
  " installed on your system\n- Git for version control\n" ++ dockerPre ++
  "\n\n### Setup Steps\n\n```bash\n# 1. Clone the repository\ngit clone " ++ repoUrl ++
  "\n\n# 2. Navigate to the project directory\ncd " ++ repoName ++
  "\n\n# 3. Install dependencies\n" ++ installCmd ++
  "\n```\n\n" ++ dockerBlock ++
  "\n\n## 🚀 Usage\n\n```bash\n# Run the application\n" ++ runCmd ++
  "\n```\n\nThe application will be available at `http://localhost:8000` (or the configured port).\n\n## 📁 Project Structure\n\n```\n" ++ fs600 ++
  "\n```\n\n## 🧪 Testing\n\n```bash\n# Run tests\n" ++ testCmd ++
  "\n```\n\n## 🤝 Contributing\n\nContributions, issues, and feature requests are welcome!\n\n1. Fork the project\n2. Create your feature branch (`git checkout -b feature/AmazingFeature`)\n3. Commit your changes (`git commit -m \x27Add some AmazingFeature\x27`)\n4. Push to the branch (`git push origin feature/AmazingFeature`)\n5. Open a Pull Request\n\n## 📄 License\n\nThis project is licensed under the MIT License - see the LICENSE file for details.\n\n## 👤 Author\n\n**Repository:** [" ++ repoName ++
  "](" ++ repoUrl ++
  ")\n\n## 🙏 Acknowledgments\n\n- Thanks to all contributors\n- Built with modern tools and best practices\n- Open source community support\n\n---\n\n⭐ **Star this repository if you find it helpful!**\n"

/-- `_create_basic_readme`: the deterministic fallback synthesizer. -/
def create_basic_readme (repo_url dependencies file_structure : String) : String :=
  let repoName := basicRepoName repo_url
  let techStack := basicTechStack dependencies file_structure
  basicReadmeText
    (pyTitle (pyReplace repoName "-" " "))
    (pyLower (basicProjectType dependencies))
    repoName
    (if techStack = [] then "See dependencies below" else pyJoin ", " techStack)
    (pyTake dependencies 400)
    (basicLanguage file_structure)
    (if strContains (pyLower file_structure) "docker"
     then "- Docker (optional, for containerized deployment)" else "")
    repo_url
    (basicInstallCmd dependencies)
    (if strContains (pyLower file_structure) "dockerfile"
     then "### Using Docker\n\n```bash\n# Build the Docker image\ndocker build -t " ++ repoName
          ++ " .\n\n# Run the container\ndocker run -p 8000:8000 " ++ repoName ++ "\n```"
     else "")
    (basicRunCmd dependencies)
    (pyTake file_structure 600)
    (if basicLanguage file_structure = "Python" then "pytest" else "npm test")

/-- `generate_readme`: a missing, empty or sub-50-character model result
is discarded in favour of the fallback synthesizer. -/
def generate_readme (o : String → Option String)
    (repo_url analysis dependencies file_structure semantic_context : String) : String :=
  let result := callInferenceApi (o (readmePromptText repo_url dependencies file_structure))
  if result = "" || result.length < 50
  then create_basic_readme repo_url dependencies file_structure
  else result

-- ==================================================================
-- backend/services/analysis_service.py
-- ==================================================================

/-- The loop body of `_analyze_files` over `(file_name, content)` pairs:
empty contents and read-error markers are skipped, every other file gets
a `\n###  <name>\n<analysis>` section. -/
def analyzeSectionList (o : String → Option String) :
    List (String × String) → List String
  | [] => []
  | (name, content) :: rest =>
    if content = "" then analyzeSectionList o rest
    else if strStartsWith content "[Error" then analyzeSectionList o rest
    else ("\n###  " ++ name ++ "\n" ++ analyze_file o name content) :: analyzeSectionList o rest

/-- `'\n'.join(analyses) if analyses else "No significant files analyzed."`. -/
def joinAnalyses (analyses : List String) : String :=
  if analyses = [] then "No significant files analyzed." else pyJoin "\n" analyses

/-- `_analyze_files` on an explicit batch of `(name, content)` pairs. -/
def analyzeFilesBatch (o : String → Option String) (batch : List (String × String)) : String :=
  joinAnalyses (analyzeSectionList o batch)

/-- `_analyze_files`: reads each priority file (truncated to
`settings.max_file_size`) and aggregates the per-file sections. -/
def analyze_files (o : String → Option String) (cs : List FSEntry) : String :=
  analyzeFilesBatch o
    (((get_priority_files cs 10).take settings_max_files_to_analyze).map
      fun pn => (pn.2, read_file_safe cs pn.1 settings_max_file_size))

/-- `_format_dependencies`: each ecosystem rendered as a fenced block of
its first 500 characters. -/
def format_dependencies (dependencies : List (String × String)) : String :=
  if dependencies = [] then "No dependency files detected."
  else pyJoin "\n" (dependencies.map fun tc =>
    "\n**" ++ tc.1 ++ ":**\n```\n" ++ pyTake tc.2 500 ++ "\n```")

/-- `_create_semantic_context`: the first readable README variant wins. -/
def create_semantic_context (cs : List FSEntry) : String :=
  match lookupFile cs ["README.md"] with
  | some c => "Existing README found:\n" ++ pyTake c 2000
  | none =>
    match lookupFile cs ["README.txt"] with
    | some c => "Existing README found:\n" ++ pyTake c 2000
    | none =>
      match lookupFile cs ["README"] with
      | some c => "Existing README found:\n" ++ pyTake c 2000
      | none => "No existing README found. Generating from scratch."

/-- `_detect_technologies`: hands 500-character slices of the file
analyses and the dependency text to `detect_technologies`. -/
def detect_technologies_step (o : String → Option String)
    (file_analyses dependencies : String) : String :=
  detect_technologies o (pyTake file_analyses 500) (pyTake dependencies 500)

/-- The analysis bundle `analyze_repository` returns. -/
structure AnalysisBundle where
  file_structure : String
  dependencies : String
  primary_language : String
  file_analyses : String
  semantic_context : String
  technologies : String
  files_analyzed_count : Nat

/-- `analyze_repository`: the orchestrator; note that
`files_analyzed_count` is `len(file_analyses)` where `file_analyses` is
the aggregated analysis STRING, so the field holds its character count. -/
def analyze_repository (o : String → Option String) (cs : List FSEntry) : AnalysisBundle :=
  let file_structure := get_file_structure cs 50
  let deps_text := format_dependencies (get_dependency_files cs)
  let file_analyses := analyze_files o cs
  { file_structure := file_structure
    dependencies := deps_text
    primary_language := detect_primary_language cs
    file_analyses := file_analyses
    semantic_context := create_semantic_context cs
    technologies := detect_technologies_step o file_analyses deps_text
    files_analyzed_count := file_analyses.length }

/-- The number of files `_analyze_files` actually aggregates a section
for (what the spec calls the count of files analyzed). -/
def filesActuallyAnalyzed (o : String → Option String) (cs : List FSEntry) : Nat :=
  (analyzeSectionList o
    (((get_priority_files cs 10).take settings_max_files_to_analyze).map
      fun pn => (pn.2, read_file_safe cs pn.1 settings_max_file_size))).length

-- ==================================================================
-- backend/services/repository_service.py and backend/api/routes.py
-- ==================================================================

/-- `validate_github_url`, over the `urlparse` components of the URL
(`urllib.parse.urlparse` is a stdlib boundary: `scheme`, `netloc` and
`path` are its fields for the given URL). -/
def validate_github_url (scheme netloc path : String) : Bool :=
  (scheme = "http" || scheme = "https")
    && strContains (pyLower netloc) "github.com"
    && 2 ≤ (pySplit (pyStripSlashes path) "/").length

/-- The response model of `POST /generate-readme` (fields used here). -/
structure ReadmeResponse where
  readme_content : String
  success : Bool
  message : String

/-- The response the route builds whenever generation completes without
an exception (routes.py lines 72-77). -/
def routeSuccessResponse (readme_content : String) : ReadmeResponse :=
  { readme_content := readme_content
    success := true
    message := "README generated successfully!" }

-- ==================================================================
-- Helper lemmas about the string primitives
-- ==================================================================

/-- The Boolean substring scan agrees with list-infix containment. -/
theorem containsList_iff (pat l : List Char) : containsList pat l = true ↔ pat <:+: l := by
  induction l with
  | nil =>
    simp [containsList, List.isPrefixOf_iff_prefix, List.prefix_nil, List.infix_nil]
  | cons c rest ih =>
    simp [containsList, List.isPrefixOf_iff_prefix, ih, List.infix_cons_iff]

/-- `strContains` agrees with infix containment of the char data. -/
theorem strContains_iff (s pat : String) : strContains s pat = true ↔ pat.data <:+: s.data :=
  containsList_iff pat.data s.data

/-- A substring of the left operand survives an append. -/
theorem strContains_append_left (a b pat : String) (h : strContains a pat = true) :
    strContains (a ++ b) pat = true := by
  rw [strContains_iff] at h ⊢
  rw [String.data_append]
  exact h.trans ⟨[], b.data, by simp⟩

/-- A substring of the right operand survives an append. -/
theorem strContains_append_right (a b pat : String) (h : strContains b pat = true) :
    strContains (a ++ b) pat = true := by
  rw [strContains_iff] at h ⊢
  rw [String.data_append]
  exact h.trans ⟨a.data, [], by simp⟩

/-- Every string contains itself. -/
theorem strContains_self (s : String) : strContains s s = true :=
  (strContains_iff s s).mpr (List.infix_refl s.data)

/-- A member of a joined list keeps its substrings in the join. -/
theorem pyJoin_contains (sep : String) (parts : List String) (x pat : String)
    (hx : x ∈ parts) (h : strContains x pat = true) :
    strContains (pyJoin sep parts) pat = true := by
  induction parts with
  | nil => cases hx
  | cons y ys ih =>
    cases ys with
    | nil =>
      cases hx with
      | head => exact h
      | tail _ hx => cases hx
    | cons z zs =>
      cases hx with
      | head => exact strContains_append_left _ _ _ (strContains_append_left _ _ _ h)
      | tail _ hx => exact strContains_append_right _ _ _ (ih hx)


/-- A string containing a non-empty pattern is itself non-empty. -/
theorem ne_empty_of_contains (s pat : String) (hpat : pat ≠ "")
    (h : strContains s pat = true) : s ≠ "" := by
  intro he
  subst he
  rw [strContains_iff] at h
  exact hpat (congrArg String.mk (List.infix_nil.mp h))

set_option maxRecDepth 20000

/-- The assembled fallback README text is non-empty and carries every
mandated section header, whatever the interpolated values are. -/
theorem basicReadmeText_sections
    (title ptLower repoName techStackStr deps400 language dockerPre
      repoUrl installCmd dockerBlock runCmd fs600 testCmd : String) :
    basicReadmeText title ptLower repoName techStackStr deps400 language
      dockerPre repoUrl installCmd dockerBlock runCmd fs600 testCmd ≠ ""
  ∧ strContains (basicReadmeText title ptLower repoName techStackStr deps400 language
      dockerPre repoUrl installCmd dockerBlock runCmd fs600 testCmd) "## 📋 Description" = true
  ∧ strContains (basicReadmeText title ptLower repoName techStackStr deps400 language
      dockerPre repoUrl installCmd dockerBlock runCmd fs600 testCmd) "## ✨ Features" = true
  ∧ strContains (basicReadmeText title ptLower repoName techStackStr deps400 language
      dockerPre repoUrl installCmd dockerBlock runCmd fs600 testCmd) "## 🛠️ Technologies Used" = true
  ∧ strContains (basicReadmeText title ptLower repoName techStackStr deps400 language
      dockerPre repoUrl installCmd dockerBlock runCmd fs600 testCmd) "## 📦 Installation" = true
  ∧ strContains (basicReadmeText title ptLower repoName techStackStr deps400 language
      dockerPre repoUrl installCmd dockerBlock runCmd fs600 testCmd) "## 🚀 Usage" = true
  ∧ strContains (basicReadmeText title ptLower repoName techStackStr deps400 language
      dockerPre repoUrl installCmd dockerBlock runCmd fs600 testCmd) "## 📁 Project Structure" = true
  ∧ strContains (basicReadmeText title ptLower repoName techStackStr deps400 language
      dockerPre repoUrl installCmd dockerBlock runCmd fs600 testCmd) "## 🧪 Testing" = true
  ∧ strContains (basicReadmeText title ptLower repoName techStackStr deps400 language
      dockerPre repoUrl installCmd dockerBlock runCmd fs600 testCmd) "## 🤝 Contributing" = true
  ∧ strContains (basicReadmeText title ptLower repoName techStackStr deps400 language
      dockerPre repoUrl installCmd dockerBlock runCmd fs600 testCmd) "## 📄 License" = true := by
  refine ⟨?_, ?_, ?_, ?_, ?_, ?_, ?_, ?_, ?_, ?_⟩
  · refine ne_empty_of_contains _ "## 📄 License" (by decide) ?_
    unfold basicReadmeText
    repeat
      first
      | exact strContains_append_right _ _ _ (by decide)
      | apply strContains_append_left
  all_goals
    unfold basicReadmeText
    repeat
      first
      | exact strContains_append_right _ _ _ (by decide)
      | apply strContains_append_left

/-- C4: the fallback README synthesizer is pure and total (a plain
function on strings, so it cannot raise); for every
`(url, dependency_text, structure_text)` triple of strings, including
all-empty strings, `_create_basic_readme` returns a non-empty Markdown
document containing every mandated section header: description,
features, tech stack, installation, usage, project structure, testing,
contributing and license. -/
theorem C4_fallback_readme_total_with_all_sections (url deps fs : String) :
    create_basic_readme url deps fs ≠ ""
  ∧ strContains (create_basic_readme url deps fs) "## 📋 Description" = true
  ∧ strContains (create_basic_readme url deps fs) "## ✨ Features" = true
  ∧ strContains (create_basic_readme url deps fs) "## 🛠️ Technologies Used" = true
  ∧ strContains (create_basic_readme url deps fs) "## 📦 Installation" = true
  ∧ strContains (create_basic_readme url deps fs) "## 🚀 Usage" = true
  ∧ strContains (create_basic_readme url deps fs) "## 📁 Project Structure" = true
  ∧ strContains (create_basic_readme url deps fs) "## 🧪 Testing" = true
  ∧ strContains (create_basic_readme url deps fs) "## 🤝 Contributing" = true
  ∧ strContains (create_basic_readme url deps fs) "## 📄 License" = true := by
  simp only [create_basic_readme]
  exact basicReadmeText_sections _ _ _ _ _ _ _ _ _ _ _ _ _

/-- A substring of the `runCmd` argument survives into the assembled
fallback README text (it is interpolated into the usage section). -/
theorem basicReadmeText_contains_runCmd
    (title ptLower repoName techStackStr deps400 language dockerPre
      repoUrl installCmd dockerBlock runCmd fs600 testCmd pat : String)
    (h : strContains runCmd pat = true) :
    strContains (basicReadmeText title ptLower repoName techStackStr deps400 language
      dockerPre repoUrl installCmd dockerBlock runCmd fs600 testCmd) pat = true := by
  unfold basicReadmeText
  repeat
    first
    | exact strContains_append_right _ _ _ h
    | apply strContains_append_left

/-- C9 counterexample: the claim quantifies over EVERY dependency text
containing "fastapi", but a dependency text that also mentions "react"
makes the later frontend block overwrite `run_cmd` with `npm start`, so
the generated fallback README contains no `uvicorn` run command even
though the structure text contains "requirements.txt" and the
dependency text contains "fastapi". -/
theorem C9_counterexample_react_overrides_uvicorn :
    strContains "requirements.txt" "requirements.txt" = true
  ∧ strContains (pyLower "fastapi react") "fastapi" = true
  ∧ basicRunCmd "fastapi react" = "npm start"
  ∧ strContains
      (create_basic_readme "https://github.com/acme/demo" "fastapi react" "requirements.txt")
      "uvicorn" = false := by decide

/-- C9 (amended): for every structure text containing
"requirements.txt" and every dependency text containing "fastapi" in
any letter case, the fallback synthesizer selects Python as the
language and keeps "FastAPI" in the detected tech stack — both
unconditionally; and provided the dependency text does not also contain
"react", "vue" or "angular" (whose later frontend block would overwrite
the run command with `npm start`), it sets the uvicorn run command and
the generated README contains `uvicorn` in its usage section. -/
theorem C9_fastapi_requirements_fallback (url deps fs : String)
    (hreq : strContains fs "requirements.txt" = true)
    (hfast : strContains (pyLower deps) "fastapi" = true) :
    basicLanguage fs = "Python"
  ∧ "FastAPI" ∈ basicTechStack deps fs
  ∧ (strContains (pyLower deps) "react" = false →
     strContains (pyLower deps) "vue" = false →
     strContains (pyLower deps) "angular" = false →
     basicRunCmd deps = "uvicorn app.main:app --reload"
       ∧ strContains (create_basic_readme url deps fs) "uvicorn" = true) := by
  have hlang : basicLanguage fs = "Python" := by
    simp [basicLanguage, hreq]
  refine ⟨hlang, ?_, ?_⟩
  · simp only [basicTechStack, basicTechStackPreLang, hfast,
      Bool.true_or, if_true, hlang, reduceIte, List.append_assoc]
    refine List.mem_append_right _ ?_
    simp
  · intro hreact hvue hang
    have hrun : basicRunCmd deps = "uvicorn app.main:app --reload" := by
      simp [basicRunCmd, hfast, hreact, hvue, hang]
    refine ⟨hrun, ?_⟩
    simp only [create_basic_readme]
    refine basicReadmeText_contains_runCmd _ _ _ _ _ _ _ _ _ _ _ _ _ _ ?_
    rw [hrun]
    decide

/-- C9 witness: a concrete instantiation of the amended theorem at
structure text "requirements.txt" and dependency text "fastapi"; the
unconditional part is also exercised at "fastapi react", where the
frontend block is active. -/
theorem C9_witness :
    strContains "requirements.txt" "requirements.txt" = true
  ∧ strContains (pyLower "fastapi") "fastapi" = true
  ∧ ("FastAPI" ∈ basicTechStack "fastapi" "requirements.txt"
      ∧ basicRunCmd "fastapi" = "uvicorn app.main:app --reload"
      ∧ strContains
          (create_basic_readme "https://github.com/acme/demo" "fastapi" "requirements.txt")
          "uvicorn" = true)
  ∧ (basicLanguage "requirements.txt" = "Python"
      ∧ "FastAPI" ∈ basicTechStack "fastapi react" "requirements.txt") :=
  ⟨by decide, by decide,
    ⟨(C9_fastapi_requirements_fallback "https://github.com/acme/demo" "fastapi"
        "requirements.txt" (by decide) (by decide)).2.1,
      ((C9_fastapi_requirements_fallback "https://github.com/acme/demo" "fastapi"
        "requirements.txt" (by decide) (by decide)).2.2 (by decide) (by decide) (by decide)).1,
      ((C9_fastapi_requirements_fallback "https://github.com/acme/demo" "fastapi"
        "requirements.txt" (by decide) (by decide)).2.2 (by decide) (by decide) (by decide)).2⟩,
    (C9_fastapi_requirements_fallback "https://github.com/acme/demo" "fastapi react"
      "requirements.txt" (by decide) (by decide)).1,
    (C9_fastapi_requirements_fallback "https://github.com/acme/demo" "fastapi react"
      "requirements.txt" (by decide) (by decide)).2.1⟩

/-- Modelled from the spec's words, for comparison with the code: the
repository display name as the last URL path segment with a TRAILING
`.git` suffix stripped (and nothing else changed). -/
def specDisplayName (repo_url : String) : String :=
  let seg := (pySplit repo_url "/").getLastD ""
  if strEndsWith seg ".git" then ⟨seg.data.take (seg.data.length - 4)⟩ else seg

/-- C7 counterexample: the code strips EVERY occurrence of ".git"
(`str.replace`), not only a trailing suffix, so a repository whose name
merely contains ".git" in the middle is renamed: for
`https://github.com/acme/my.gitrepo` the claim's trailing-suffix rule
yields `my.gitrepo` while the code yields `myrepo`. -/
theorem C7_counterexample_inner_git_removed :
    basicRepoName "https://github.com/acme/my.gitrepo" = "myrepo"
  ∧ specDisplayName "https://github.com/acme/my.gitrepo" = "my.gitrepo"
  ∧ basicRepoName "https://github.com/acme/my.gitrepo"
      ≠ specDisplayName "https://github.com/acme/my.gitrepo" := by decide

/-- C7 (amended): the fallback synthesizer's display name is the last
URL path segment with every occurrence of ".git" removed (hyphens
preserved, title-casing applied only in the rendered heading); in
particular `https://github.com/acme/widget-tools.git` yields
`widget-tools`, rendered as heading title `Widget Tools`. -/
theorem C7_repo_display_name :
    basicRepoName "https://github.com/acme/widget-tools.git" = "widget-tools"
  ∧ pyTitle (pyReplace (basicRepoName "https://github.com/acme/widget-tools.git") "-" " ")
      = "Widget Tools"
  ∧ basicRepoName "https://github.com/acme/my.gitrepo" = "myrepo" := by decide

/-- C5 counterexample: the prompt handed to the LLM collaborator by the
technology-detection step does NOT incorporate the file-analyses slice:
with a non-empty file-analyses slice `FILESMARKER` and empty dependency
text, no trace of the slice reaches the prompt. -/
theorem C5_counterexample_files_slice_unused :
    strContains "FILESMARKER" "FILESMARKER" = true
  ∧ strContains (techDetectionPromptText (pyTake "FILESMARKER" 500) (pyTake "" 500))
      "FILESMARKER" = false := by decide

/-- C5 (amended): the technology-detection step passes both
500-character slices to the collaborator call, but the prompt it hands
over incorporates only the dependency slice (re-truncated to 800
characters); the file-analyses slice never influences the request, so
the whole step is independent of it. -/
theorem C5_tech_prompt_uses_only_dependency_slice
    (o : String → Option String) (fa fa2 deps : String) :
    detect_technologies_step o fa deps = detect_technologies_step o fa2 deps
  ∧ (∃ l r, techDetectionPromptText (pyTake fa 500) (pyTake deps 500)
      = l ++ pyTake (pyTake deps 500) 800 ++ r) :=
  ⟨rfl, "List all technologies and frameworks used in this project:\n\n",
    "\n\nTechnologies (comma-separated):", rfl⟩

/-- C6: whenever the hosted-model README call produces a missing/empty
result or any string shorter than 50 characters, `generate_readme`
discards it and returns the fallback synthesizer's output built from
the same url, dependency text and structure text, and the route still
reports success for the request. -/
theorem C6_short_model_output_falls_back (o : String → Option String)
    (url analysis deps fs sem r : String)
    (hres : o (readmePromptText url deps fs) = some r)
    (hlen : r.length < 50) :
    generate_readme o url analysis deps fs sem = create_basic_readme url deps fs
  ∧ (routeSuccessResponse (generate_readme o url analysis deps fs sem)).success = true := by
  constructor
  · simp [generate_readme, callInferenceApi, hres, hlen]
  · simp [routeSuccessResponse]

/-- C6 witness: a 10-character model result is below the threshold and
the fallback output is returned. -/
theorem C6_witness :
    ("0123456789" : String).length < 50
  ∧ generate_readme (fun _ => some "0123456789") "https://github.com/acme/demo" "" "" "" ""
      = create_basic_readme "https://github.com/acme/demo" "" "" :=
  ⟨by decide,
    (C6_short_model_output_falls_back (fun _ => some "0123456789")
      "https://github.com/acme/demo" "" "" "" "" "0123456789" rfl (by decide)).1⟩

/-- C10: `validate_github_url` accepts any http/https URL whose host
merely CONTAINS "github.com" as a substring, as long as the path has at
least two stripped segments — the host check is a substring test, not
an exact-host match. -/
theorem C10_substring_host_passes_validation (scheme netloc path : String)
    (hs : scheme = "http" ∨ scheme = "https")
    (hn : strContains (pyLower netloc) "github.com" = true)
    (hp : 2 ≤ (pySplit (pyStripSlashes path) "/").length) :
    validate_github_url scheme netloc path = true := by
  rcases hs with h | h <;> simp [validate_github_url, h, hn, hp]

/-- C10 witness: the non-GitHub host `notgithub.com` passes the gate. -/
theorem C10_witness :
    strContains (pyLower "notgithub.com") "github.com" = true
  ∧ ("notgithub.com" : String) ≠ "github.com"
  ∧ validate_github_url "https" "notgithub.com" "/acme/repo" = true :=
  ⟨by decide, by decide,
    C10_substring_host_passes_validation "https" "notgithub.com" "/acme/repo"
      (Or.inr rfl) (by decide) (by decide)⟩

-- ==================================================================
-- Traversal lemmas for the skip rules and the caps
-- ==================================================================

/-- Every file the pruned walk reaches below a clean prefix has only
clean (non-skipped) ancestor directories. -/
theorem walkSubs_clean :
    ∀ (pre : List String) (cs : List FSEntry),
      (∀ d ∈ pre, should_skip_directory d = false) →
      ∀ pn ∈ walkSubs pre cs, ∀ d ∈ pn.1.dropLast, should_skip_directory d = false := by
  intro pre cs
  induction pre, cs using walkSubs.induct with
  | case1 pre =>
    intro _ pn hpn
    simp [walkSubs] at hpn
  | case2 pre name content rest ih =>
    intro hpre
    simpa [walkSubs] using ih hpre
  | case3 pre n cs rest ih1 ih2 =>
    intro hpre pn hpn
    simp only [walkSubs, List.mem_append] at hpn
    rcases hpn with h | h
    · by_cases hskip : should_skip_directory n = true
      · simp [hskip] at h
      · have hn : should_skip_directory n = false := by
          simpa using hskip
        have hpre2 : ∀ d ∈ pre ++ [n], should_skip_directory d = false := by
          intro d hd
          rcases List.mem_append.mp hd with hd | hd
          · exact hpre d hd
          · simp only [List.mem_singleton] at hd
            exact hd ▸ hn
        simp only [hn, Bool.false_eq_true, if_false, List.mem_append, List.mem_map] at h
        rcases h with ⟨m, _, rfl⟩ | h
        · intro d hd
          have : (pre ++ [n, m]).dropLast = pre ++ [n] := by
            have : pre ++ [n, m] = (pre ++ [n]) ++ [m] := by simp
            rw [this, List.dropLast_concat]
          rw [this] at hd
          exact hpre2 d hd
        · exact ih1 hpre2 pn h
    · exact ih2 hpre pn h

/-- Every file the pruned walk reaches from the root has only clean
ancestor directories. -/
theorem walkAll_clean (cs : List FSEntry) :
    ∀ pn ∈ walkAll cs, ∀ d ∈ pn.1.dropLast, should_skip_directory d = false := by
  intro pn hpn
  rcases List.mem_append.mp hpn with h | h
  · rcases List.mem_map.mp h with ⟨m, _, rfl⟩
    intro d hd
    simp at hd
  · exact walkSubs_clean [] cs (by simp) pn h

/-- The early-return collection only keeps elements of its input. -/
theorem capAppend_subset (limit : Nat) :
    ∀ (xs : List α) (n : Nat), ∀ x ∈ capAppend limit xs n, x ∈ xs := by
  intro xs
  induction xs with
  | nil => intro n x hx; simp [capAppend] at hx
  | cons y ys ih =>
    intro n x hx
    simp only [capAppend, List.mem_cons] at hx
    rcases hx with rfl | hx
    · exact List.mem_cons_self _ _
    · by_cases hc : limit ≤ n + 1
      · simp [hc] at hx
      · exact List.mem_cons_of_mem _ (ih (n + 1) x (by simpa [hc] using hx))

/-- The early-return collection never exceeds its cap (positive caps). -/
theorem capAppend_length (limit : Nat) :
    ∀ (xs : List α) (n : Nat), n < limit → (capAppend limit xs n).length ≤ limit - n := by
  intro xs
  induction xs with
  | nil => intro n hn; simp [capAppend]
  | cons y ys ih =>
    intro n hn
    by_cases hc : limit ≤ n + 1
    · simp [capAppend, hc]
      omega
    · have := ih (n + 1) (by omega)
      simp only [capAppend, hc, if_false, List.length_cons]
      omega

/-- Paths collected by the structure loop either were in the
accumulator or passed the skipped-parent filter. -/
theorem structGo_clean (maxFiles : Nat) :
    ∀ (es : List (List String × Bool)) (acc : List (List String)),
      (∀ p ∈ acc, ∀ d ∈ p.dropLast, should_skip_directory d = false) →
      ∀ p ∈ structGo maxFiles es acc, ∀ d ∈ p.dropLast, should_skip_directory d = false := by
  intro es
  induction es with
  | nil => intro acc hacc p hp; exact hacc p hp
  | cons e rest ih =>
    intro acc hacc p hp
    obtain ⟨q, isf⟩ := e
    by_cases hskip : q.dropLast.any should_skip_directory = true
    · rw [structGo] at hp
      simp only [hskip, if_true] at hp
      exact ih acc hacc p hp
    · have hq : ∀ d ∈ q.dropLast, should_skip_directory d = false := by
        intro d hd
        have := List.any_eq_false.mp (by simpa using hskip) d hd
        simpa using this
      have hacc2 : ∀ r ∈ (if isf then acc ++ [q] else acc),
          ∀ d ∈ r.dropLast, should_skip_directory d = false := by
        intro r hr
        by_cases hf : isf = true
        · have hr2 : r ∈ acc ∨ r = q := by simpa [hf] using hr
          rcases hr2 with h | rfl
          · exact hacc r h
          · exact hq
        · have hr2 : r ∈ acc := by simpa [hf] using hr
          exact hacc r hr2
      rw [structGo] at hp
      simp only [hskip] at hp
      by_cases hcap : maxFiles ≤ (if isf then acc ++ [q] else acc).length
      · simp only [hcap, if_true, if_false, Bool.false_eq_true] at hp
        exact hacc2 p hp
      · simp only [hcap, if_false, Bool.false_eq_true] at hp
        exact ih _ hacc2 p hp

/-- The structure loop never exceeds a positive cap. -/
theorem structGo_length (maxFiles : Nat) (hmax : 1 ≤ maxFiles) :
    ∀ (es : List (List String × Bool)) (acc : List (List String)),
      acc.length < maxFiles → (structGo maxFiles es acc).length ≤ maxFiles := by
  intro es
  induction es with
  | nil => intro acc hacc; simp [structGo]; omega
  | cons e rest ih =>
    intro acc hacc
    obtain ⟨q, isf⟩ := e
    by_cases hskip : q.dropLast.any should_skip_directory = true
    · rw [structGo]
      simp only [hskip, if_true]
      exact ih acc hacc
    · have hlen2 : (if isf then acc ++ [q] else acc).length ≤ acc.length + 1 := by
        by_cases hf : isf = true <;> simp [hf]
      rw [structGo]
      simp only [hskip, Bool.false_eq_true, if_false]
      by_cases hcap : maxFiles ≤ (if isf then acc ++ [q] else acc).length
      · simp only [hcap, if_true]
        omega
      · simp only [hcap, if_false]
        exact ih _ (by omega)

/-- C2: for every directory tree, no file lying under a directory whose
name is in the fixed skip set or begins with '.', at any nesting depth,
appears in the structure listing of `get_file_structure`, in the
priority-file selection of `get_priority_files`, or among the walked
files whose extensions `detect_primary_language` tallies (its count is
taken over `walkAll`): every surfaced path has only non-skipped
ancestor directories. -/
theorem C2_skipped_dirs_never_surface (cs : List FSEntry) (maxFiles limit : Nat)
    (p : List String) (d : String) (hd : d ∈ p.dropLast)
    (hp : p ∈ structureFiles cs maxFiles
        ∨ (∃ n, (p, n) ∈ get_priority_files cs limit)
        ∨ (∃ n, (p, n) ∈ walkAll cs)) :
    should_skip_directory d = false := by
  rcases hp with h | ⟨n, h⟩ | ⟨n, h⟩
  · exact structGo_clean maxFiles (rglobEntries cs) [] (by simp) p h d hd
  · have hfil := capAppend_subset limit
      ((walkAll cs).filter fun pn => priority_names.contains pn.2 || is_code_file pn.2) 0
      (p, n) (by simpa [get_priority_files] using h)
    exact walkAll_clean cs (p, n) (List.mem_of_mem_filter hfil) d hd
  · exact walkAll_clean cs (p, n) h d hd

/-- C2 witness: in the tree `src/a.py` the surfaced path's ancestor
`src` is indeed not skipped. -/
theorem C2_witness :
    ("src" ∈ (["src", "a.py"] : List String).dropLast)
  ∧ should_skip_directory "src" = false := by
  have hstruct : structureFiles [FSEntry.dir "src" [FSEntry.file "a.py" "x"]] 50
      = [["src", "a.py"]] := by
    have h1 : should_skip_directory "src" = false := by decide
    simp [structureFiles, rglobEntries, rglobSub, childEntries, structGo, fileNamesOf, h1]
  refine ⟨by decide, ?_⟩
  exact C2_skipped_dirs_never_surface [FSEntry.dir "src" [FSEntry.file "a.py" "x"]] 50 10
    ["src", "a.py"] "src" (by decide) (Or.inl (by rw [hstruct]; exact List.mem_singleton.mpr rfl))

/-- C3: for every directory tree and positive caps, the structure
listing of `get_file_structure` holds at most `max_files` paths and the
priority selection of `get_priority_files` at most `limit` pairs. -/
theorem C3_selection_respects_caps (cs : List FSEntry) (maxFiles limit : Nat)
    (hmax : 1 ≤ maxFiles) (hlim : 1 ≤ limit) :
    (structureFiles cs maxFiles).length ≤ maxFiles
  ∧ (get_priority_files cs limit).length ≤ limit := by
  constructor
  · exact structGo_length maxFiles hmax (rglobEntries cs) [] (by simpa using hmax)
  · have h := capAppend_length limit
      ((walkAll cs).filter fun pn => priority_names.contains pn.2 || is_code_file pn.2) 0
      (by omega)
    simpa [get_priority_files] using h

/-- C3 witness: the default caps 50 and 10 on a one-file tree. -/
theorem C3_witness :
    (1 : Nat) ≤ 50 ∧ (1 : Nat) ≤ 10
  ∧ (structureFiles [FSEntry.dir "src" [FSEntry.file "a.py" "x"]] 50).length ≤ 50
  ∧ (get_priority_files [FSEntry.dir "src" [FSEntry.file "a.py" "x"]] 10).length ≤ 10 :=
  ⟨by decide, by decide,
    (C3_selection_respects_caps [FSEntry.dir "src" [FSEntry.file "a.py" "x"]] 50 10
      (by decide) (by decide)).1,
    (C3_selection_respects_caps [FSEntry.dir "src" [FSEntry.file "a.py" "x"]] 50 10
      (by decide) (by decide)).2⟩

/-- The per-file section loop distributes over batch concatenation: each
file's section depends only on that file. -/
theorem analyzeSectionList_append (o : String → Option String)
    (a b : List (String × String)) :
    analyzeSectionList o (a ++ b) = analyzeSectionList o a ++ analyzeSectionList o b := by
  induction a with
  | nil => rfl
  | cons nc rest ih =>
    obtain ⟨n, c⟩ := nc
    by_cases h1 : c = ""
    · simp [analyzeSectionList, h1, ih]
    · by_cases h2 : strStartsWith c "[Error" = true
      · simp [analyzeSectionList, h1, h2, ih]
      · simp [analyzeSectionList, h1, h2, ih]

/-- C8 counterexample: when the inference call for `utils.py` raises,
the aggregate text carries the placeholder with a plain hyphen-minus,
`[Analysis skipped - utils.py]`, not the em-dash literal
`[Analysis skipped — utils.py]` that the claim quotes. -/
theorem C8_counterexample_em_dash :
    strContains (analyzeFilesBatch (fun _ => none) [("utils.py", "x")])
      "[Analysis skipped — utils.py]" = false
  ∧ strContains (analyzeFilesBatch (fun _ => none) [("utils.py", "x")])
      "[Analysis skipped - utils.py]" = true := by decide

/-- C8 (amended): if the per-file inference call raises for a file in
the analyzed batch (and its content is readable and non-empty), the
aggregate per-file analysis text contains the literal placeholder
section `[Analysis skipped - <name>]` (hyphen-minus) for that file, and
every remaining file of the batch is still analyzed and included
exactly as it would be on its own. -/
theorem C8_failed_call_degrades_to_placeholder (o : String → Option String)
    (l1 l2 : List (String × String)) (n c : String)
    (hfail : o (fileAnalysisPromptText n c) = none)
    (hc : c ≠ "") (herr : strStartsWith c "[Error" = false) :
    analyzeSectionList o (l1 ++ (n, c) :: l2)
      = analyzeSectionList o l1
        ++ ("\n###  " ++ n ++ "\n" ++ ("[Analysis skipped - " ++ n ++ "]"))
          :: analyzeSectionList o l2
  ∧ strContains (analyzeFilesBatch o (l1 ++ (n, c) :: l2))
      ("[Analysis skipped - " ++ n ++ "]") = true := by
  have hsec : analyze_file o n c = "[Analysis skipped - " ++ n ++ "]" := by
    simp [analyze_file, callInferenceApi, hfail]
  have hmid : analyzeSectionList o ((n, c) :: l2)
      = ("\n###  " ++ n ++ "\n" ++ ("[Analysis skipped - " ++ n ++ "]"))
        :: analyzeSectionList o l2 := by
    simp [analyzeSectionList, hc, herr, hsec]
  have happ := analyzeSectionList_append o l1 ((n, c) :: l2)
  have hmem : ("\n###  " ++ n ++ "\n" ++ ("[Analysis skipped - " ++ n ++ "]"))
      ∈ analyzeSectionList o (l1 ++ (n, c) :: l2) := by
    rw [happ, hmid]
    exact List.mem_append_right _ (List.mem_cons_self _ _)
  refine ⟨by rw [happ, hmid], ?_⟩
  have hcontains : strContains
      ("\n###  " ++ n ++ "\n" ++ ("[Analysis skipped - " ++ n ++ "]"))
      ("[Analysis skipped - " ++ n ++ "]") = true :=
    strContains_append_right _ _ _ (strContains_self _)
  have hne : analyzeSectionList o (l1 ++ (n, c) :: l2) ≠ [] := by
    intro h
    rw [h] at hmem
    cases hmem
  unfold analyzeFilesBatch joinAnalyses
  rw [if_neg hne]
  exact pyJoin_contains "\n" _ _ _ hmem hcontains

/-- C8 witness: a three-file batch whose middle call fails. -/
theorem C8_witness :
    (("z" : String) ≠ "")
  ∧ strContains
      (analyzeFilesBatch (fun _ => none)
        ([("a.py", "p")] ++ ("utils.py", "z") :: [("b.py", "q")]))
      ("[Analysis skipped - " ++ "utils.py" ++ "]") = true :=
  ⟨by decide,
    (C8_failed_call_degrades_to_placeholder (fun _ => none) [("a.py", "p")] [("b.py", "q")]
      "utils.py" "z" rfl (by decide) (by decide)).2⟩

/-- C1: the `files_analyzed_count` field is `len(file_analyses)` where
`file_analyses` is the aggregated analysis STRING, so it records a
character count, not the number of files analyzed: on an empty
repository zero files are analyzed, yet the field holds 30 — the length
of the placeholder string "No significant files analyzed.". -/
theorem C1_count_is_string_length_not_file_count (o : String → Option String) :
    (analyze_repository o []).file_analyses = "No significant files analyzed."
  ∧ (analyze_repository o []).files_analyzed_count = 30
  ∧ filesActuallyAnalyzed o [] = 0 := by
  have hempty : analyze_files o [] = "No significant files analyzed." := by
    simp [analyze_files, analyzeFilesBatch, get_priority_files, walkAll, walkSubs,
      fileNamesOf, capAppend, analyzeSectionList, joinAnalyses]
  refine ⟨?_, ?_, ?_⟩
  · simpa [analyze_repository] using hempty
  · have : (analyze_repository o []).files_analyzed_count = (analyze_files o []).length := by
      simp [analyze_repository]
    rw [this, hempty]
    decide
  · simp [filesActuallyAnalyzed, get_priority_files, walkAll, walkSubs,
      fileNamesOf, capAppend, analyzeSectionList]
